import Mathlib

/-!
Verification of the orderless-transaction example module
(examples/orderless_txn.py) of the aptos-python-sdk repository.

The module under src is glue code that calls the SDK method
RestClient.submit_orderless_transaction.  That SDK method is code of the
repository that is not included under src, so its semantics are modelled
from the spec (sections 4.1, 4.2, 7 and 9); the example functions
themselves are embedded directly from the source file.
-/

namespace OrderlessTxn

/-- Account addresses, abstracted as natural numbers. -/
abbrev Addr := Nat

/-- Transaction identifiers returned on acceptance. -/
abbrev TxHash := Nat

/-- A typed transaction argument, mirroring TransactionArgument with its
serializer tag (Serializer.struct for an address, Serializer.u64 for a
64-bit integer) in the source. -/
inductive TxArg where
  | argAddr (a : Addr)
  | argU64 (n : Nat)
deriving DecidableEq, Repr

/-- The payload variant of the data model: a tagged variant over an
EntryFunction call and Script bytecode, as built by TransactionPayload in
the source. -/
inductive PayloadKind where
  | entryFunction (moduleId : String) (fn : String) (tyArgs : List String) (args : List TxArg)
  | script (code : List Nat) (tyArgs : List String) (args : List TxArg)
deriving DecidableEq, Repr

/-- The transfer payload built in the examples:
EntryFunction.natural "0x1::aptos_account" "transfer" [] with the
recipient address and the amount as arguments. -/
def transferPayload (recipient : Addr) (amount : Nat) : PayloadKind :=
  PayloadKind.entryFunction "0x1::aptos_account" "transfer" []
    [TxArg.argAddr recipient, TxArg.argU64 amount]

/-- Recognizes the coin-transfer entry function and extracts its
recipient and amount; any other payload has no modelled balance effect. -/
def transferSpec : PayloadKind → Option (Addr × Nat)
  | PayloadKind.entryFunction m f _ [TxArg.argAddr r, TxArg.argU64 amt] =>
      if m = "0x1::aptos_account" ∧ f = "transfer" then some (r, amt) else none
  | _ => none

/-- The funds a payload moves out of the paying account. -/
def transferAmount (p : PayloadKind) : Nat :=
  match transferSpec p with
  | some (_, amt) => amt
  | none => 0

/-- Modelled from the spec: payload validity, section 7 names
invalid-payload with empty or invalid script bytecode as the example; an
EntryFunction payload is structurally valid. -/
def payloadValid : PayloadKind → Bool
  | PayloadKind.entryFunction _ _ _ _ => true
  | PayloadKind.script code _ _ => !code.isEmpty

/-- Modelled from the spec: the on-chain effect of a payload, executed by
the paying account, section 4.1 (mutates on-chain state per the payload,
for example a balance transfer). -/
def applyPayload (b : Addr → Nat) (payer : Addr) (p : PayloadKind) : Addr → Nat :=
  match transferSpec p with
  | none => b
  | some (r, amt) =>
      let b1 : Addr → Nat := fun a => if a = payer then b payer - amt else b a
      fun a => if a = r then b1 r + amt else b1 a

/-- Modelled from the spec, section 9: transaction outcome as a result
type with explicit variants instead of a generic error. -/
inductive SubmitResult where
  | accepted (h : TxHash)
  | duplicateNonce
  | invalidPayload
  | approvalPending
  | insufficientFunds
deriving DecidableEq, Repr

/-- Modelled from the spec: the observable chain state of the
collaborator, sections 3, 4.1 and 4.2: the set of (sender, nonce) pairs
already committed or pending, account balances in smallest units, the
recorded votes per (multisig address, payload) combination, and the
approval threshold configured per multisig account. -/
structure ChainState where
  committed : List (Addr × Nat)
  balances : Addr → Nat
  votes : Addr → PayloadKind → Nat
  threshold : Addr → Nat

/-- The deterministic transaction identifier the model returns on
acceptance. -/
def txHashOf (sender nonce : Nat) : TxHash :=
  Nat.pair sender nonce

/-- Records one vote for the (multisig, payload) combination. -/
def recordVote (v : Addr → PayloadKind → Nat) (m : Addr) (p : PayloadKind) :
    Addr → PayloadKind → Nat :=
  fun a q => if a = m ∧ q = p then v m p + 1 else v a q

/-- Clears the votes for the (multisig, payload) combination after
execution. -/
def clearVotes (v : Addr → PayloadKind → Nat) (m : Addr) (p : PayloadKind) :
    Addr → PayloadKind → Nat :=
  fun a q => if a = m ∧ q = p then 0 else v a q

/-- Modelled from the spec: the SDK method
RestClient.submit_orderless_transaction is code of this repository that
is not under src (only its caller examples/orderless_txn.py is), so it is
modelled from spec sections 4.1, 4.2 and 7:
a duplicate (sender, nonce) is rejected without re-executing side
effects; an invalid payload is rejected; a direct submission with
sufficient balance commits the nonce and applies the payload exactly
once; a multisig submission below the approval threshold records a vote
and leaves account state unmodified, and one reaching the threshold
executes the payload from the multisig account exactly once. -/
def submit_orderless_transaction (st : ChainState) (sender : Addr) (payload : PayloadKind)
    (nonce : Nat) (multisigAddr : Option Addr) (w : Bool) : ChainState × SubmitResult :=
  if (sender, nonce) ∈ st.committed then
    (st, SubmitResult.duplicateNonce)
  else if payloadValid payload = false then
    (st, SubmitResult.invalidPayload)
  else
    match multisigAddr with
    | none =>
        if st.balances sender < transferAmount payload then
          (st, SubmitResult.insufficientFunds)
        else
          ({ st with
              committed := (sender, nonce) :: st.committed,
              balances := applyPayload st.balances sender payload },
           SubmitResult.accepted (txHashOf sender nonce))
    | some m =>
        if st.votes m payload + 1 < st.threshold m then
          ({ st with
              committed := (sender, nonce) :: st.committed,
              votes := recordVote st.votes m payload },
           SubmitResult.approvalPending)
        else if st.balances m < transferAmount payload then
          (st, SubmitResult.insufficientFunds)
        else
          ({ st with
              committed := (sender, nonce) :: st.committed,
              balances := applyPayload st.balances m payload,
              votes := clearVotes st.votes m payload },
           SubmitResult.accepted (txHashOf sender nonce))

/-- One submission request, as the tuple of arguments a caller passes. -/
structure SubmitReq where
  sender : Addr
  payload : PayloadKind
  nonce : Nat
  multisigAddr : Option Addr
  w : Bool
deriving DecidableEq, Repr

/-- Applies one submission request to the chain state. -/
def submitStep (st : ChainState) (r : SubmitReq) : ChainState × SubmitResult :=
  submit_orderless_transaction st r.sender r.payload r.nonce r.multisigAddr r.w

/-- Modelled from the spec, section 5: concurrent submission attempts are
rendered as an arbitrary interleaving, that is an arbitrary sequence of
atomic submission steps against the shared chain state. -/
def runSubmissions (st : ChainState) : List SubmitReq → ChainState × List SubmitResult
  | [] => (st, [])
  | r :: rs =>
      let p := submitStep st r
      let q := runSubmissions p.1 rs
      (q.1, p.2 :: q.2)

/-- True when the request carries the given sender and nonce and the
paired result is an acceptance. -/
def isAcceptedFor (S N : Nat) (r : SubmitReq) (res : SubmitResult) : Bool :=
  (r.sender == S) && (r.nonce == N) &&
    (match res with
     | SubmitResult.accepted _ => true
     | _ => false)

/-- Counts the submissions with the given sender and nonce that were
accepted, pairing requests with their results positionally. -/
def acceptedCount (S N : Nat) : List SubmitReq → List SubmitResult → Nat
  | r :: rs, res :: ress =>
      (if isAcceptedFor S N r res then 1 else 0) + acceptedCount S N rs ress
  | _, _ => 0

deriving instance DecidableEq for Except

/-- A Python exception value, carrying its message. -/
structure Exc where
  msg : String
deriving DecidableEq, Repr

/-- One observable action of the example script: a print call (format
text plus the formatted dynamic part), a network call, or a client
close. -/
inductive Event where
  | printed (fmt : String) (dyn : String)
  | fund (addr : Addr) (amount : Nat)
  | submit (sender : Addr) (payload : PayloadKind) (nonce : Nat) (multisigAddr : Option Addr) (w : Bool)
  | balanceQuery (addr : Addr)
  | closeClient
  | closeFaucet
deriving DecidableEq, Repr

/-- The nondeterministic inputs of example_regular_orderless: the two
generated account addresses, the value of int(time.time() * 1000), and
the outcome of each awaited network call. -/
structure RegularEnv where
  senderAddr : Addr
  recipientAddr : Addr
  timeMillis : Nat
  fundResult : Except Exc Unit
  submitResult : Except Exc TxHash
  balanceResult : Except Exc Nat
deriving DecidableEq, Repr

/-- Example 1 of the source: regular orderless transaction with
EntryFunction.  Returns the trace of events and either normal completion
or the uncaught exception: none of its awaited calls is inside a
try block. -/
def example_regular_orderless (env : RegularEnv) : List Event × Except Exc Unit :=
  let pre : List Event :=
    [Event.printed "Example 1: Regular Orderless Transaction (EntryFunction)" "",
     Event.printed "Sender: " (toString env.senderAddr),
     Event.printed "Recipient: " (toString env.recipientAddr),
     Event.printed "\nFunding sender..." "",
     Event.fund env.senderAddr 100000000]
  match env.fundResult with
  | Except.error e => (pre, Except.error e)
  | Except.ok _ =>
    let payload := transferPayload env.recipientAddr 1000000
    let nonce := env.timeMillis
    let pre2 := pre ++
      [Event.printed "Submitting orderless transaction with nonce: " (toString nonce),
       Event.submit env.senderAddr payload nonce none true]
    match env.submitResult with
    | Except.error e => (pre2, Except.error e)
    | Except.ok h =>
      let pre3 := pre2 ++
        [Event.printed "Transaction completed: " (toString h),
         Event.balanceQuery env.recipientAddr]
      match env.balanceResult with
      | Except.error e => (pre3, Except.error e)
      | Except.ok b =>
          (pre3 ++ [Event.printed "Recipient balance: " (toString b)], Except.ok ())

/-- The nondeterministic inputs of example_script_orderless. -/
structure ScriptEnv where
  senderAddr : Addr
  timeMillis : Nat
  fundResult : Except Exc Unit
  submitResult : Except Exc TxHash
deriving DecidableEq, Repr

/-- Example 2 of the source: orderless transaction with a Script payload
whose bytecode is empty.  The submission call sits inside a try block
whose handler catches every exception and prints a note; the funding
call is outside it. -/
def example_script_orderless (env : ScriptEnv) : List Event × Except Exc Unit :=
  let pre : List Event :=
    [Event.printed "Example 2: Orderless Transaction with Script" "",
     Event.printed "Sender: " (toString env.senderAddr),
     Event.printed "\nFunding sender..." "",
     Event.fund env.senderAddr 100000000]
  match env.fundResult with
  | Except.error e => (pre, Except.error e)
  | Except.ok _ =>
    let payload := PayloadKind.script [] [] []
    let nonce := env.timeMillis
    let pre2 := pre ++
      [Event.printed "Submitting orderless script transaction with nonce: " (toString nonce),
       Event.submit env.senderAddr payload nonce none true]
    match env.submitResult with
    | Except.ok h =>
        (pre2 ++ [Event.printed "Transaction completed: " (toString h)], Except.ok ())
    | Except.error e =>
        (pre2 ++ [Event.printed "Note: Script example failed (expected without valid bytecode): " e.msg],
         Except.ok ())

/-- The placeholder multisig account address of example 3. -/
def exampleMultisigAddress : Addr :=
  0x1234567890abcdef1234567890abcdef1234567890abcdef1234567890abcdef

/-- The nondeterministic inputs of
example_multisig_orderless_with_execution. -/
structure MultisigEnv where
  owner1Addr : Addr
  owner2Addr : Addr
  recipientAddr : Addr
  timeMillis : Nat
  fundResult : Except Exc Unit
  submitResult : Except Exc TxHash
deriving DecidableEq, Repr

/-- Example 3 of the source: multisig orderless transaction.  The
submission call sits inside a try block whose handler catches every
exception and prints a note; the funding call is outside it. -/
def example_multisig_orderless_with_execution (env : MultisigEnv) : List Event × Except Exc Unit :=
  let pre : List Event :=
    [Event.printed "Example 3: Multisig Orderless Transaction with Execution" "",
     Event.printed "Owner 1: " (toString env.owner1Addr),
     Event.printed "Owner 2: " (toString env.owner2Addr),
     Event.printed "Recipient: " (toString env.recipientAddr),
     Event.printed "\nFunding owner 1..." "",
     Event.fund env.owner1Addr 100000000]
  match env.fundResult with
  | Except.error e => (pre, Except.error e)
  | Except.ok _ =>
    let payload := transferPayload env.recipientAddr 500000
    let nonce := env.timeMillis
    let pre2 := pre ++
      [Event.printed "\nMultisig Address (example): " (toString exampleMultisigAddress),
       Event.printed "\nSubmitting multisig orderless transaction with nonce: " (toString nonce),
       Event.submit env.owner1Addr payload nonce (some exampleMultisigAddress) true]
    match env.submitResult with
    | Except.ok h =>
        (pre2 ++ [Event.printed "Transaction completed: " (toString h)], Except.ok ())
    | Except.error e =>
        (pre2 ++ [Event.printed "Note: Multisig example failed (expected without actual multisig setup): " e.msg],
         Except.ok ())

/-- The nondeterministic inputs of example_replay_protection. -/
structure ReplayEnv where
  senderAddr : Addr
  recipientAddr : Addr
  fundResult : Except Exc Unit
  submit1Result : Except Exc TxHash
  submit2Result : Except Exc TxHash
deriving DecidableEq, Repr

/-- Example 5 of the source: replay protection with the fixed nonce
999999.  Only the second submission sits inside a try block; the funding
call and the first submission are outside every handler. -/
def example_replay_protection (env : ReplayEnv) : List Event × Except Exc Unit :=
  let pre : List Event :=
    [Event.printed "Example 5: Replay Protection (Same Nonce)" "",
     Event.printed "Sender: " (toString env.senderAddr),
     Event.printed "Recipient: " (toString env.recipientAddr),
     Event.printed "\nFunding sender..." "",
     Event.fund env.senderAddr 100000000]
  match env.fundResult with
  | Except.error e => (pre, Except.error e)
  | Except.ok _ =>
    let payload := transferPayload env.recipientAddr 1000000
    let nonce : Nat := 999999
    let pre2 := pre ++
      [Event.printed "\nSubmitting first transaction with nonce: " (toString nonce),
       Event.submit env.senderAddr payload nonce none true]
    match env.submit1Result with
    | Except.error e => (pre2, Except.error e)
    | Except.ok h1 =>
      let pre3 := pre2 ++
        [Event.printed "First transaction completed: " (toString h1),
         Event.printed "\nAttempting second transaction with SAME nonce: " (toString nonce),
         Event.submit env.senderAddr payload nonce none true]
      match env.submit2Result with
      | Except.ok h2 =>
          (pre3 ++ [Event.printed "Second transaction succeeded (unexpected): " (toString h2),
                    Event.printed "This might mean the first transaction was not fully indexed yet" ""],
           Except.ok ())
      | Except.error e =>
          (pre3 ++ [Event.printed "Replay protection worked! Transaction rejected: " e.msg,
                    Event.printed "  Error: " e.msg],
           Except.ok ())

/-- The nondeterministic inputs of a whole run of main. -/
structure MainEnv where
  regular : RegularEnv
  scriptEx : ScriptEnv
  multisig : MultisigEnv
  replay : ReplayEnv
deriving DecidableEq, Repr

/-- The events of the top-level except handler of main: it prints the
error and a traceback. -/
def handlerTrace (e : Exc) : List Event :=
  [Event.printed "\nError running examples: " e.msg,
   Event.printed "traceback (most recent call last)" ""]

/-- The main function of the source: runs the four examples in sequence
inside one try block whose tail also closes both clients; the except
handler catches every exception, prints it, and returns, so main itself
never raises. -/
def mainRun (env : MainEnv) : List Event × Except Exc Unit :=
  let hdr := [Event.printed "APTOS ORDERLESS TRANSACTIONS - COMPLETE EXAMPLES" ""]
  let r1 := example_regular_orderless env.regular
  match r1.2 with
  | Except.error e => (hdr ++ r1.1 ++ handlerTrace e, Except.ok ())
  | Except.ok _ =>
    let r2 := example_script_orderless env.scriptEx
    match r2.2 with
    | Except.error e => (hdr ++ r1.1 ++ r2.1 ++ handlerTrace e, Except.ok ())
    | Except.ok _ =>
      let r3 := example_multisig_orderless_with_execution env.multisig
      match r3.2 with
      | Except.error e => (hdr ++ r1.1 ++ r2.1 ++ r3.1 ++ handlerTrace e, Except.ok ())
      | Except.ok _ =>
        let r4 := example_replay_protection env.replay
        match r4.2 with
        | Except.error e => (hdr ++ r1.1 ++ r2.1 ++ r3.1 ++ r4.1 ++ handlerTrace e, Except.ok ())
        | Except.ok _ =>
          (hdr ++ r1.1 ++ r2.1 ++ r3.1 ++ r4.1 ++
             [Event.closeClient, Event.closeFaucet,
              Event.printed "ALL EXAMPLES COMPLETED" ""],
           Except.ok ())

/-- A concrete chain state for witnesses: empty ledger, every account
funded with 100000000 units, no recorded votes, approval threshold 2. -/
def st0 : ChainState :=
  { committed := [], balances := fun _ => 100000000,
    votes := fun _ _ => 0, threshold := fun _ => 2 }

/-- A concrete chain state whose account 2 starts with a zero balance. -/
def stFresh : ChainState :=
  { committed := [], balances := fun a => if a = 2 then 0 else 100000000,
    votes := fun _ _ => 0, threshold := fun _ => 2 }

/-- A concrete regular-example environment whose submission fails. -/
def regularEnvFail : RegularEnv :=
  { senderAddr := 1, recipientAddr := 2, timeMillis := 1700000000000,
    fundResult := Except.ok (),
    submitResult := Except.error { msg := "INSUFFICIENT_BALANCE" },
    balanceResult := Except.ok 0 }

/-- A concrete regular-example environment whose calls all succeed. -/
def regularEnvOk : RegularEnv :=
  { senderAddr := 1, recipientAddr := 2, timeMillis := 1700000000000,
    fundResult := Except.ok (), submitResult := Except.ok 77,
    balanceResult := Except.ok 1000000 }

/-- A concrete script-example environment whose submission fails. -/
def scriptEnv0 : ScriptEnv :=
  { senderAddr := 3, timeMillis := 1700000000001,
    fundResult := Except.ok (),
    submitResult := Except.error { msg := "INVALID_SCRIPT" } }

/-- A concrete multisig-example environment whose submission fails. -/
def multisigEnv0 : MultisigEnv :=
  { owner1Addr := 4, owner2Addr := 5, recipientAddr := 6,
    timeMillis := 1700000000002,
    fundResult := Except.ok (),
    submitResult := Except.error { msg := "MULTISIG_NOT_FOUND" } }

/-- A concrete replay-example environment whose first submission succeeds
and whose second submission fails as a duplicate. -/
def replayEnv0 : ReplayEnv :=
  { senderAddr := 7, recipientAddr := 8,
    fundResult := Except.ok (), submit1Result := Except.ok 88,
    submit2Result := Except.error { msg := "DUPLICATE_NONCE" } }

/-- A concrete run environment in which the one submission the source
leaves outside every try block, the regular example submission, fails. -/
def envFail : MainEnv :=
  { regular := regularEnvFail, scriptEx := scriptEnv0,
    multisig := multisigEnv0, replay := replayEnv0 }

/-- A concrete run environment in which the regular and replay examples
complete and only the guarded submissions fail. -/
def envOk : MainEnv :=
  { regular := regularEnvOk, scriptEx := scriptEnv0,
    multisig := multisigEnv0, replay := replayEnv0 }

/-- Unfolding lemma: running a nonempty request list performs one step
and continues from the resulting state. -/
theorem runSubmissions_cons (st : ChainState) (r : SubmitReq) (rs : List SubmitReq) :
    runSubmissions st (r :: rs)
      = ((runSubmissions (submitStep st r).1 rs).1,
         (submitStep st r).2 :: (runSubmissions (submitStep st r).1 rs).2) := rfl

/-- Unfolding lemma for the acceptance counter. -/
theorem acceptedCount_cons (S N : Nat) (r : SubmitReq) (rs : List SubmitReq)
    (res : SubmitResult) (ress : List SubmitResult) :
    acceptedCount S N (r :: rs) (res :: ress)
      = (if isAcceptedFor S N r res then 1 else 0) + acceptedCount S N rs ress := rfl

/-- A submission with an already-committed (sender, nonce) pair is
rejected as a duplicate and leaves the state unchanged. -/
theorem submit_duplicate (st : ChainState) (S : Addr) (p : PayloadKind) (N : Nat)
    (ma : Option Addr) (w : Bool) (h : (S, N) ∈ st.committed) :
    submit_orderless_transaction st S p N ma w = (st, SubmitResult.duplicateNonce) := by
  simp [submit_orderless_transaction, h]

/-- A submission step never removes a pair from the committed set. -/
theorem committed_monotone (st : ChainState) (r : SubmitReq) (q : Addr × Nat)
    (h : q ∈ st.committed) : q ∈ (submitStep st r).1.committed := by
  unfold submitStep submit_orderless_transaction
  repeat' split
  all_goals simp_all [List.mem_cons]

/-- Acceptance of a submission commits its (sender, nonce) pair. -/
theorem accepted_commits (st : ChainState) (r : SubmitReq) (h : TxHash)
    (hacc : (submitStep st r).2 = SubmitResult.accepted h) :
    (r.sender, r.nonce) ∈ (submitStep st r).1.committed := by
  by_cases hd : (r.sender, r.nonce) ∈ st.committed
  · simp [submitStep, submit_orderless_transaction, hd] at hacc
  · by_cases hv : payloadValid r.payload = false
    · simp [submitStep, submit_orderless_transaction, hd, hv] at hacc
    · cases hma : r.multisigAddr with
      | none =>
        by_cases hf : st.balances r.sender < transferAmount r.payload
        · simp [submitStep, submit_orderless_transaction, hd, hv, hma, hf] at hacc
        · simp [submitStep, submit_orderless_transaction, hd, hv, hma, hf]
      | some m =>
        by_cases hth : st.votes m r.payload + 1 < st.threshold m
        · simp [submitStep, submit_orderless_transaction, hd, hv, hma, hth] at hacc
        · by_cases hf : st.balances m < transferAmount r.payload
          · simp [submitStep, submit_orderless_transaction, hd, hv, hma, hth, hf] at hacc
          · simp [submitStep, submit_orderless_transaction, hd, hv, hma, hth, hf]

/-- Once a (sender, nonce) pair is committed, no later submission with
that pair is ever accepted. -/
theorem acceptedCount_eq_zero (S N : Nat) (st : ChainState) (reqs : List SubmitReq)
    (h : (S, N) ∈ st.committed) :
    acceptedCount S N reqs (runSubmissions st reqs).2 = 0 := by
  induction reqs generalizing st with
  | nil => rfl
  | cons r rs ih =>
    rw [runSubmissions_cons, acceptedCount_cons]
    have hmono : (S, N) ∈ (submitStep st r).1.committed := committed_monotone st r (S, N) h
    have hhead : isAcceptedFor S N r (submitStep st r).2 = false := by
      by_cases hr : r.sender = S ∧ r.nonce = N
      · have hmem : (r.sender, r.nonce) ∈ st.committed := by rw [hr.1, hr.2]; exact h
        have hdup : submitStep st r = (st, SubmitResult.duplicateNonce) :=
          submit_duplicate st r.sender r.payload r.nonce r.multisigAddr r.w hmem
        rw [hdup]
        simp [isAcceptedFor]
      · simp only [isAcceptedFor, Bool.and_eq_false_iff, beq_eq_false_iff_ne, ne_eq]
        rcases Decidable.not_and_iff_or_not.mp hr with hS | hN
        · exact Or.inl (Or.inl hS)
        · exact Or.inl (Or.inr hN)
    rw [hhead]
    simpa using ih (submitStep st r).1 hmono

/-- C5: in any interleaving of submissions against the shared chain
state, at most one submission with a given (sender, nonce) pair is
accepted, so its side effects apply at most once; modelled from spec
section 5, which renders concurrent submission attempts as atomic
acceptance steps per (sender, nonce). -/
theorem orderless_exactly_once_concurrent (S N : Nat) (st : ChainState)
    (reqs : List SubmitReq) :
    acceptedCount S N reqs (runSubmissions st reqs).2 ≤ 1 := by
  induction reqs generalizing st with
  | nil => simp [runSubmissions, acceptedCount]
  | cons r rs ih =>
    rw [runSubmissions_cons, acceptedCount_cons]
    by_cases hacc : isAcceptedFor S N r (submitStep st r).2 = true
    · simp only [isAcceptedFor, Bool.and_eq_true, beq_iff_eq] at hacc
      obtain ⟨⟨hS, hN⟩, hm⟩ := hacc
      cases hres : (submitStep st r).2 with
      | accepted h =>
        have hmem : (S, N) ∈ (submitStep st r).1.committed := by
          rw [← hS, ← hN]
          exact accepted_commits st r h hres
        have hz := acceptedCount_eq_zero S N (submitStep st r).1 rs hmem
        rw [hz]
        split <;> omega
      | duplicateNonce => rw [hres] at hm; simp at hm
      | invalidPayload => rw [hres] at hm; simp at hm
      | approvalPending => rw [hres] at hm; simp at hm
      | insufficientFunds => rw [hres] at hm; simp at hm
    · rw [if_neg hacc]
      simpa using ih (submitStep st r).1

/-- C1: submitting the same (sender, nonce, payload) twice yields exactly
one on-chain effect: the first call returns a transaction identifier and
the second is rejected as a duplicate nonce, leaving the state of the
first call unchanged; modelled from spec sections 4.1 and 8. -/
theorem submit_replay_protection (st : ChainState) (S : Addr) (p : PayloadKind) (N : Nat)
    (hfresh : (S, N) ∉ st.committed) (hvalid : payloadValid p = true)
    (hfunds : transferAmount p ≤ st.balances S) :
    (submit_orderless_transaction st S p N none true).2
        = SubmitResult.accepted (txHashOf S N) ∧
    submit_orderless_transaction
        (submit_orderless_transaction st S p N none true).1 S p N none true
      = ((submit_orderless_transaction st S p N none true).1,
         SubmitResult.duplicateNonce) := by
  have hlt : ¬ st.balances S < transferAmount p := Nat.not_lt.mpr hfunds
  have e1 : submit_orderless_transaction st S p N none true
      = ({ st with committed := (S, N) :: st.committed,
                   balances := applyPayload st.balances S p },
         SubmitResult.accepted (txHashOf S N)) := by
    simp [submit_orderless_transaction, hfresh, hvalid, hlt]
  refine ⟨by rw [e1], ?_⟩
  rw [e1]
  exact submit_duplicate _ S p N none true (by simp)

/-- C1 witness: concrete replay on st0 with sender 1, nonce 999999. -/
theorem submit_replay_protection_witness :
    (1, 999999) ∉ st0.committed ∧
    payloadValid (transferPayload 2 1000000) = true ∧
    transferAmount (transferPayload 2 1000000) ≤ st0.balances 1 ∧
    ((submit_orderless_transaction st0 1 (transferPayload 2 1000000) 999999 none true).2
        = SubmitResult.accepted (txHashOf 1 999999) ∧
     submit_orderless_transaction
        (submit_orderless_transaction st0 1 (transferPayload 2 1000000) 999999 none true).1
        1 (transferPayload 2 1000000) 999999 none true
      = ((submit_orderless_transaction st0 1 (transferPayload 2 1000000) 999999 none true).1,
         SubmitResult.duplicateNonce)) :=
  ⟨by decide, by decide, by decide,
   submit_replay_protection st0 1 (transferPayload 2 1000000) 999999
     (by decide) (by decide) (by decide)⟩

/-- The paying account keeps enough funds for a second identical payload
when it starts with twice the transferred amount. -/
theorem applyPayload_payer_le (b : Addr → Nat) (payer : Addr) (p : PayloadKind)
    (hf : 2 * transferAmount p ≤ b payer) :
    transferAmount p ≤ applyPayload b payer p payer := by
  unfold applyPayload
  cases hs : transferSpec p with
  | none => exact le_trans (by omega) hf
  | some rp =>
    obtain ⟨r, amt⟩ := rp
    have hamt : transferAmount p = amt := by simp [transferAmount, hs]
    rw [hamt] at hf ⊢
    by_cases hr : payer = r
    · subst hr
      simp
    · simp [hr]
      omega

/-- C2: two submissions from the same sender with distinct nonces both
succeed, with no ordering requirement between the nonces; modelled from
spec sections 4.1 and 8. -/
theorem distinct_nonces_both_accepted (st : ChainState) (S : Addr) (p : PayloadKind)
    (N1 N2 : Nat) (hne : N1 ≠ N2)
    (h1 : (S, N1) ∉ st.committed) (h2 : (S, N2) ∉ st.committed)
    (hvalid : payloadValid p = true)
    (hfunds : 2 * transferAmount p ≤ st.balances S) :
    (submit_orderless_transaction st S p N1 none true).2
        = SubmitResult.accepted (txHashOf S N1) ∧
    (submit_orderless_transaction
        (submit_orderless_transaction st S p N1 none true).1 S p N2 none true).2
      = SubmitResult.accepted (txHashOf S N2) := by
  have hlt1 : ¬ st.balances S < transferAmount p := by omega
  have e1 : submit_orderless_transaction st S p N1 none true
      = ({ st with committed := (S, N1) :: st.committed,
                   balances := applyPayload st.balances S p },
         SubmitResult.accepted (txHashOf S N1)) := by
    simp [submit_orderless_transaction, h1, hvalid, hlt1]
  have h2b : (S, N2) ∉ (S, N1) :: st.committed := by
    intro hmem
    rcases List.mem_cons.mp hmem with hc | hm
    · exact hne (congrArg Prod.snd hc).symm
    · exact h2 hm
  have hlt2 : ¬ applyPayload st.balances S p S < transferAmount p :=
    Nat.not_lt.mpr (applyPayload_payer_le st.balances S p hfunds)
  refine ⟨by rw [e1], ?_⟩
  rw [e1]
  simp [submit_orderless_transaction, h2b, hvalid, hlt2]

/-- C2 witness: concrete pair of submissions with the larger nonce
first, showing no ordering requirement. -/
theorem distinct_nonces_both_accepted_witness :
    (7 : Nat) ≠ 3 ∧
    (1, 7) ∉ st0.committed ∧
    (1, 3) ∉ st0.committed ∧
    payloadValid (transferPayload 2 1000000) = true ∧
    2 * transferAmount (transferPayload 2 1000000) ≤ st0.balances 1 ∧
    ((submit_orderless_transaction st0 1 (transferPayload 2 1000000) 7 none true).2
        = SubmitResult.accepted (txHashOf 1 7) ∧
     (submit_orderless_transaction
        (submit_orderless_transaction st0 1 (transferPayload 2 1000000) 7 none true).1
        1 (transferPayload 2 1000000) 3 none true).2
      = SubmitResult.accepted (txHashOf 1 3)) :=
  ⟨by decide, by decide, by decide, by decide, by decide,
   distinct_nonces_both_accepted st0 1 (transferPayload 2 1000000) 7 3
     (by decide) (by decide) (by decide) (by decide) (by decide)⟩

/-- C3: a call with wait set to true that returns a transaction
identifier has its transaction committed in the resulting chain state,
the shallow rendering of suspension until finality; modelled from spec
section 4.1. -/
theorem wait_accepted_is_committed (st : ChainState) (S : Addr) (p : PayloadKind)
    (N : Nat) (ma : Option Addr) (h : TxHash)
    (hacc : (submit_orderless_transaction st S p N ma true).2 = SubmitResult.accepted h) :
    (S, N) ∈ (submit_orderless_transaction st S p N ma true).1.committed := by
  have := accepted_commits st ⟨S, p, N, ma, true⟩ h hacc
  exact this

/-- C3 witness: a concrete accepted wait-true call is committed. -/
theorem wait_accepted_is_committed_witness :
    (submit_orderless_transaction st0 1 (transferPayload 2 1000000) 5 none true).2
        = SubmitResult.accepted (txHashOf 1 5) ∧
    (1, 5) ∈ (submit_orderless_transaction st0 1 (transferPayload 2 1000000) 5 none true).1.committed :=
  ⟨by decide,
   wait_accepted_is_committed st0 1 (transferPayload 2 1000000) 5 none (txHashOf 1 5) (by decide)⟩

/-- C4: a multisig submission one vote below the approval threshold
records a vote, leaves every account balance unchanged, and ends in the
approval-pending outcome, which differs from the executed outcome; the
submission that reaches the threshold executes the payload exactly once
from the multisig account, and a resubmission of it is rejected as a
duplicate without further effect; modelled from spec sections 4.2 and 8. -/
theorem multisig_vote_then_execute (st : ChainState) (m S1 S2 : Addr) (p : PayloadKind)
    (N1 N2 : Nat)
    (h1 : (S1, N1) ∉ st.committed) (h2 : (S2, N2) ∉ st.committed)
    (hne : (S2, N2) ≠ (S1, N1))
    (hvalid : payloadValid p = true)
    (hth : st.votes m p + 2 = st.threshold m)
    (hfunds : transferAmount p ≤ st.balances m) :
    (submit_orderless_transaction st S1 p N1 (some m) true).2
        = SubmitResult.approvalPending ∧
    (submit_orderless_transaction st S1 p N1 (some m) true).1.balances
        = st.balances ∧
    (submit_orderless_transaction st S1 p N1 (some m) true).1.votes m p
        = st.votes m p + 1 ∧
    (submit_orderless_transaction
        (submit_orderless_transaction st S1 p N1 (some m) true).1 S2 p N2 (some m) true).2
        = SubmitResult.accepted (txHashOf S2 N2) ∧
    SubmitResult.approvalPending ≠ SubmitResult.accepted (txHashOf S2 N2) ∧
    (submit_orderless_transaction
        (submit_orderless_transaction st S1 p N1 (some m) true).1 S2 p N2 (some m) true).1.balances
        = applyPayload st.balances m p ∧
    (submit_orderless_transaction
        (submit_orderless_transaction st S1 p N1 (some m) true).1 S2 p N2 (some m) true).1.votes m p
        = 0 ∧
    submit_orderless_transaction
        (submit_orderless_transaction
          (submit_orderless_transaction st S1 p N1 (some m) true).1 S2 p N2 (some m) true).1
        S2 p N2 (some m) true
      = ((submit_orderless_transaction
          (submit_orderless_transaction st S1 p N1 (some m) true).1 S2 p N2 (some m) true).1,
         SubmitResult.duplicateNonce) := by
  have hlt1 : st.votes m p + 1 < st.threshold m := by omega
  have e1 : submit_orderless_transaction st S1 p N1 (some m) true
      = ({ st with committed := (S1, N1) :: st.committed,
                   votes := recordVote st.votes m p },
         SubmitResult.approvalPending) := by
    simp [submit_orderless_transaction, h1, hvalid, hlt1]
  have hrv : recordVote st.votes m p m p = st.votes m p + 1 := by simp [recordVote]
  have hnlt2 : ¬ (recordVote st.votes m p m p + 1 < st.threshold m) := by
    rw [hrv]; omega
  have hflt : ¬ st.balances m < transferAmount p := Nat.not_lt.mpr hfunds
  have h2b : (S2, N2) ∉ (S1, N1) :: st.committed := by
    intro hmem
    rcases List.mem_cons.mp hmem with hc | hm
    · exact hne hc
    · exact h2 hm
  have e2 : submit_orderless_transaction
      ({ st with committed := (S1, N1) :: st.committed,
                 votes := recordVote st.votes m p }) S2 p N2 (some m) true
      = ({ st with committed := (S2, N2) :: (S1, N1) :: st.committed,
                   balances := applyPayload st.balances m p,
                   votes := clearVotes (recordVote st.votes m p) m p },
         SubmitResult.accepted (txHashOf S2 N2)) := by
    simp [submit_orderless_transaction, h2b, hvalid, hnlt2, hflt]
  refine ⟨by rw [e1], by rw [e1], ?_, ?_, by simp, ?_, ?_, ?_⟩
  · rw [e1]
    exact hrv
  · rw [e1, e2]
  · rw [e1, e2]
  · rw [e1, e2]
    simp [clearVotes]
  · rw [e1, e2]
    exact submit_duplicate _ S2 p N2 (some m) true (by simp)

/-- C4 witness: concrete multisig scenario on st0 with threshold 2. -/
theorem multisig_vote_then_execute_witness :
    (1, 10) ∉ st0.committed ∧
    (2, 11) ∉ st0.committed ∧
    ((2, 11) : Addr × Nat) ≠ (1, 10) ∧
    payloadValid (transferPayload 4 500000) = true ∧
    st0.votes 3 (transferPayload 4 500000) + 2 = st0.threshold 3 ∧
    transferAmount (transferPayload 4 500000) ≤ st0.balances 3 ∧
    ((submit_orderless_transaction st0 1 (transferPayload 4 500000) 10 (some 3) true).2
        = SubmitResult.approvalPending ∧
     (submit_orderless_transaction st0 1 (transferPayload 4 500000) 10 (some 3) true).1.balances
        = st0.balances ∧
     (submit_orderless_transaction st0 1 (transferPayload 4 500000) 10 (some 3) true).1.votes
          3 (transferPayload 4 500000)
        = st0.votes 3 (transferPayload 4 500000) + 1 ∧
     (submit_orderless_transaction
        (submit_orderless_transaction st0 1 (transferPayload 4 500000) 10 (some 3) true).1
        2 (transferPayload 4 500000) 11 (some 3) true).2
        = SubmitResult.accepted (txHashOf 2 11) ∧
     SubmitResult.approvalPending ≠ SubmitResult.accepted (txHashOf 2 11) ∧
     (submit_orderless_transaction
        (submit_orderless_transaction st0 1 (transferPayload 4 500000) 10 (some 3) true).1
        2 (transferPayload 4 500000) 11 (some 3) true).1.balances
        = applyPayload st0.balances 3 (transferPayload 4 500000) ∧
     (submit_orderless_transaction
        (submit_orderless_transaction st0 1 (transferPayload 4 500000) 10 (some 3) true).1
        2 (transferPayload 4 500000) 11 (some 3) true).1.votes 3 (transferPayload 4 500000)
        = 0 ∧
     submit_orderless_transaction
        (submit_orderless_transaction
          (submit_orderless_transaction st0 1 (transferPayload 4 500000) 10 (some 3) true).1
          2 (transferPayload 4 500000) 11 (some 3) true).1
        2 (transferPayload 4 500000) 11 (some 3) true
      = ((submit_orderless_transaction
          (submit_orderless_transaction st0 1 (transferPayload 4 500000) 10 (some 3) true).1
          2 (transferPayload 4 500000) 11 (some 3) true).1,
         SubmitResult.duplicateNonce)) :=
  ⟨by decide, by decide, by decide, by decide, by decide, by decide,
   multisig_vote_then_execute st0 3 1 2 (transferPayload 4 500000) 10 11
     (by decide) (by decide) (by decide) (by decide) (by decide) (by decide)⟩

/-- The transfer recognizer evaluated on the transfer payload the
examples build. -/
theorem transferSpec_transferPayload (r : Addr) (amt : Nat) :
    transferSpec (transferPayload r amt) = some (r, amt) := rfl

/-- The modelled effect of a transfer credits the recipient with the
amount when the recipient is not the payer. -/
theorem applyPayload_recipient (b : Addr → Nat) (S r : Addr) (amt : Nat) (hne : r ≠ S) :
    applyPayload b S (transferPayload r amt) r = b r + amt := by
  simp [applyPayload, transferSpec_transferPayload, hne]

/-- The except handler of main always turns the run result into normal
completion: main itself never raises. -/
theorem main_result_ok (env : MainEnv) : (mainRun env).2 = Except.ok () := by
  unfold mainRun
  dsimp only
  repeat' split
  all_goals rfl

/-- The regular example never emits a close event. -/
theorem close_not_in_regular (e : RegularEnv) :
    Event.closeClient ∉ (example_regular_orderless e).1 ∧
    Event.closeFaucet ∉ (example_regular_orderless e).1 := by
  obtain ⟨sa, ra, t, fr, sr, br⟩ := e
  refine ⟨?_, ?_⟩ <;> (cases fr <;> cases sr <;> cases br <;> simp [example_regular_orderless])

/-- The script example never emits a close event. -/
theorem close_not_in_script (e : ScriptEnv) :
    Event.closeClient ∉ (example_script_orderless e).1 ∧
    Event.closeFaucet ∉ (example_script_orderless e).1 := by
  obtain ⟨sa, t, fr, sr⟩ := e
  refine ⟨?_, ?_⟩ <;> (cases fr <;> cases sr <;> simp [example_script_orderless])

/-- The multisig example never emits a close event. -/
theorem close_not_in_multisig (e : MultisigEnv) :
    Event.closeClient ∉ (example_multisig_orderless_with_execution e).1 ∧
    Event.closeFaucet ∉ (example_multisig_orderless_with_execution e).1 := by
  obtain ⟨o1, o2, ra, t, fr, sr⟩ := e
  refine ⟨?_, ?_⟩ <;> (cases fr <;> cases sr <;> simp [example_multisig_orderless_with_execution])

/-- The replay example never emits a close event. -/
theorem close_not_in_replay (e : ReplayEnv) :
    Event.closeClient ∉ (example_replay_protection e).1 ∧
    Event.closeFaucet ∉ (example_replay_protection e).1 := by
  obtain ⟨sa, ra, fr, s1, s2⟩ := e
  refine ⟨?_, ?_⟩ <;> (cases fr <;> cases s1 <;> cases s2 <;> simp [example_replay_protection])

/-- Every submission event the regular example emits has its wait flag
set to true. -/
theorem regular_submit_wait (env : RegularEnv) (s : Addr) (p : PayloadKind) (n : Nat)
    (ma : Option Addr) (w : Bool)
    (hmem : Event.submit s p n ma w ∈ (example_regular_orderless env).1) : w = true := by
  obtain ⟨sa, ra, t, fr, sr, br⟩ := env
  cases fr <;> cases sr <;> cases br <;> simp [example_regular_orderless] at hmem <;> tauto

/-- Every submission event the script example emits has its wait flag
set to true. -/
theorem script_submit_wait (env : ScriptEnv) (s : Addr) (p : PayloadKind) (n : Nat)
    (ma : Option Addr) (w : Bool)
    (hmem : Event.submit s p n ma w ∈ (example_script_orderless env).1) : w = true := by
  obtain ⟨sa, t, fr, sr⟩ := env
  cases fr <;> cases sr <;> simp [example_script_orderless] at hmem <;> tauto

/-- Every submission event the multisig example emits has its wait flag
set to true. -/
theorem multisig_submit_wait (env : MultisigEnv) (s : Addr) (p : PayloadKind) (n : Nat)
    (ma : Option Addr) (w : Bool)
    (hmem : Event.submit s p n ma w ∈ (example_multisig_orderless_with_execution env).1) :
    w = true := by
  obtain ⟨o1, o2, ra, t, fr, sr⟩ := env
  cases fr <;> cases sr <;> simp [example_multisig_orderless_with_execution] at hmem <;> tauto

/-- Every submission event the replay example emits has its wait flag
set to true. -/
theorem replay_submit_wait (env : ReplayEnv) (s : Addr) (p : PayloadKind) (n : Nat)
    (ma : Option Addr) (w : Bool)
    (hmem : Event.submit s p n ma w ∈ (example_replay_protection env).1) : w = true := by
  obtain ⟨sa, ra, fr, s1, s2⟩ := env
  cases fr <;> cases s1 <;> cases s2 <;> simp [example_replay_protection] at hmem <;> tauto

/-- The header print of the script example never occurs in the regular
example trace. -/
theorem ex2_header_not_in_regular (e : RegularEnv) :
    Event.printed "Example 2: Orderless Transaction with Script" ""
      ∉ (example_regular_orderless e).1 := by
  obtain ⟨sa, ra, t, fr, sr, br⟩ := e
  cases fr <;> cases sr <;> cases br <;> simp [example_regular_orderless]

/-- A submission failure in the regular example propagates out of the
example uncaught. -/
theorem regular_submit_error_raises (e : RegularEnv) (x : Exc)
    (hf : e.fundResult = Except.ok ()) (hs : e.submitResult = Except.error x) :
    (example_regular_orderless e).2 = Except.error x := by
  obtain ⟨sa, ra, t, fr, sr, br⟩ := e
  simp only at hf hs
  subst hf; subst hs
  simp [example_regular_orderless]

/-- A submission failure in the script example is caught by its local
handler, which prints a note. -/
theorem script_submit_error_caught (e : ScriptEnv) (x : Exc)
    (hf : e.fundResult = Except.ok ()) (hs : e.submitResult = Except.error x) :
    (example_script_orderless e).2 = Except.ok () ∧
    Event.printed "Note: Script example failed (expected without valid bytecode): " x.msg
      ∈ (example_script_orderless e).1 := by
  obtain ⟨sa, t, fr, sr⟩ := e
  simp only at hf hs
  subst hf; subst hs
  simp [example_script_orderless]

/-- A submission failure in the multisig example is caught by its local
handler, which prints a note. -/
theorem multisig_submit_error_caught (e : MultisigEnv) (x : Exc)
    (hf : e.fundResult = Except.ok ()) (hs : e.submitResult = Except.error x) :
    (example_multisig_orderless_with_execution e).2 = Except.ok () ∧
    Event.printed "Note: Multisig example failed (expected without actual multisig setup): " x.msg
      ∈ (example_multisig_orderless_with_execution e).1 := by
  obtain ⟨o1, o2, ra, t, fr, sr⟩ := e
  simp only at hf hs
  subst hf; subst hs
  simp [example_multisig_orderless_with_execution]

/-- A failure of the second replay submission is caught by its local
handler, which prints the replay diagnostic. -/
theorem replay_second_error_caught (e : ReplayEnv) (h1 : TxHash) (x : Exc)
    (hf : e.fundResult = Except.ok ()) (hs1 : e.submit1Result = Except.ok h1)
    (hs2 : e.submit2Result = Except.error x) :
    (example_replay_protection e).2 = Except.ok () ∧
    Event.printed "Replay protection worked! Transaction rejected: " x.msg
      ∈ (example_replay_protection e).1 := by
  obtain ⟨sa, ra, fr, s1, s2⟩ := e
  simp only at hf hs1 hs2
  subst hf; subst hs1; subst hs2
  simp [example_replay_protection]

/-- C6 counterexample: in the concrete environment envFail the
submission failure of the regular example is not caught within that
example (the example itself ends in the error), and the run does not
continue to the next example (the script example header is never
printed). -/
theorem submission_failure_not_locally_caught :
    (example_regular_orderless envFail.regular).2
        = Except.error { msg := "INSUFFICIENT_BALANCE" } ∧
    Event.printed "Example 2: Orderless Transaction with Script" "" ∉ (mainRun envFail).1 := by
  decide

/-- C6 amended: only the script submission, the multisig submission and
the second replay submission are wrapped in local handlers that catch the
failure and print a diagnostic; a failure of the regular example
submission (likewise of the first replay submission) propagates out of
its example to the top-level handler of main, which prints a diagnostic
and skips the remaining examples, and main itself always completes
without raising. -/
theorem error_handling_amended (env : MainEnv) (x1 x2 x3 x4 : Exc) (h1 : TxHash)
    (hrf : env.regular.fundResult = Except.ok ())
    (hrs : env.regular.submitResult = Except.error x1)
    (hsf : env.scriptEx.fundResult = Except.ok ())
    (hss : env.scriptEx.submitResult = Except.error x2)
    (hmf : env.multisig.fundResult = Except.ok ())
    (hms : env.multisig.submitResult = Except.error x3)
    (hpf : env.replay.fundResult = Except.ok ())
    (hp1 : env.replay.submit1Result = Except.ok h1)
    (hp2 : env.replay.submit2Result = Except.error x4) :
    (mainRun env).2 = Except.ok () ∧
    (example_script_orderless env.scriptEx).2 = Except.ok () ∧
    Event.printed "Note: Script example failed (expected without valid bytecode): " x2.msg
        ∈ (example_script_orderless env.scriptEx).1 ∧
    (example_multisig_orderless_with_execution env.multisig).2 = Except.ok () ∧
    Event.printed "Note: Multisig example failed (expected without actual multisig setup): " x3.msg
        ∈ (example_multisig_orderless_with_execution env.multisig).1 ∧
    (example_replay_protection env.replay).2 = Except.ok () ∧
    Event.printed "Replay protection worked! Transaction rejected: " x4.msg
        ∈ (example_replay_protection env.replay).1 ∧
    (example_regular_orderless env.regular).2 = Except.error x1 ∧
    Event.printed "Example 2: Orderless Transaction with Script" "" ∉ (mainRun env).1 ∧
    Event.printed "\nError running examples: " x1.msg ∈ (mainRun env).1 := by
  have hreg := regular_submit_error_raises env.regular x1 hrf hrs
  have hscript := script_submit_error_caught env.scriptEx x2 hsf hss
  have hmulti := multisig_submit_error_caught env.multisig x3 hmf hms
  have hreplay := replay_second_error_caught env.replay h1 x4 hpf hp1 hp2
  have hhdr := ex2_header_not_in_regular env.regular
  refine ⟨main_result_ok env, hscript.1, hscript.2, hmulti.1, hmulti.2,
    hreplay.1, hreplay.2, hreg, ?_, ?_⟩
  · simp [mainRun, hreg, handlerTrace, hhdr]
  · simp [mainRun, hreg, handlerTrace]

/-- C6 witness: the amended behavior at the concrete environment
envFail. -/
theorem error_handling_amended_witness :
    (mainRun envFail).2 = Except.ok () ∧
    (example_regular_orderless envFail.regular).2
        = Except.error { msg := "INSUFFICIENT_BALANCE" } := by
  have h := error_handling_amended envFail
    { msg := "INSUFFICIENT_BALANCE" } { msg := "INVALID_SCRIPT" }
    { msg := "MULTISIG_NOT_FOUND" } { msg := "DUPLICATE_NONCE" } 88
    rfl rfl rfl rfl rfl rfl rfl rfl rfl
  exact ⟨h.1, h.2.2.2.2.2.2.2.1⟩

/-- C7 counterexample: in the concrete environment envFail the run takes
an exceptional path and neither client is ever closed. -/
theorem close_skipped_on_exceptional_path :
    (mainRun envFail).2 = Except.ok () ∧
    Event.closeClient ∉ (mainRun envFail).1 ∧
    Event.closeFaucet ∉ (mainRun envFail).1 := by
  decide

/-- C7 amended: both clients are closed exactly on the normal completion
path, when all four examples complete without raising; on every
exceptional path out of the example sequence neither close is
invoked. -/
theorem close_invoked_iff_normal_path (env : MainEnv) :
    (Event.closeClient ∈ (mainRun env).1 ↔
      ((example_regular_orderless env.regular).2 = Except.ok () ∧
       (example_script_orderless env.scriptEx).2 = Except.ok () ∧
       (example_multisig_orderless_with_execution env.multisig).2 = Except.ok () ∧
       (example_replay_protection env.replay).2 = Except.ok ())) ∧
    (Event.closeFaucet ∈ (mainRun env).1 ↔
      ((example_regular_orderless env.regular).2 = Except.ok () ∧
       (example_script_orderless env.scriptEx).2 = Except.ok () ∧
       (example_multisig_orderless_with_execution env.multisig).2 = Except.ok () ∧
       (example_replay_protection env.replay).2 = Except.ok ())) := by
  have h1 := close_not_in_regular env.regular
  have h2 := close_not_in_script env.scriptEx
  have h3 := close_not_in_multisig env.multisig
  have h4 := close_not_in_replay env.replay
  cases hr1 : (example_regular_orderless env.regular).2 with
  | error e => simp [mainRun, hr1, handlerTrace, h1.1, h1.2]
  | ok u =>
    cases hr2 : (example_script_orderless env.scriptEx).2 with
    | error e => simp [mainRun, hr1, hr2, handlerTrace, h1.1, h1.2, h2.1, h2.2]
    | ok u2 =>
      cases hr3 : (example_multisig_orderless_with_execution env.multisig).2 with
      | error e =>
        simp [mainRun, hr1, hr2, hr3, handlerTrace, h1.1, h1.2, h2.1, h2.2, h3.1, h3.2]
      | ok u3 =>
        cases hr4 : (example_replay_protection env.replay).2 with
        | error e =>
          simp [mainRun, hr1, hr2, hr3, hr4, handlerTrace,
            h1.1, h1.2, h2.1, h2.2, h3.1, h3.2, h4.1, h4.2]
        | ok u4 =>
          simp [mainRun, hr1, hr2, hr3, hr4,
            h1.1, h1.2, h2.1, h2.2, h3.1, h3.2, h4.1, h4.2]

/-- C9: the script example only ever submits the Script payload with
empty bytecode, no type arguments and no arguments, using the
timestamp-based nonce, and a failure of that submission is caught by the
local handler, which prints the note, so the example completes without
propagating a submission failure. -/
theorem script_payload_and_containment (env : ScriptEnv) (s : Addr) (p : PayloadKind)
    (n : Nat) (ma : Option Addr) (w : Bool) (x : Exc)
    (hmem : Event.submit s p n ma w ∈ (example_script_orderless env).1)
    (herr : env.submitResult = Except.error x) :
    p = PayloadKind.script [] [] [] ∧ n = env.timeMillis ∧
    (example_script_orderless env).2 = Except.ok () ∧
    Event.printed "Note: Script example failed (expected without valid bytecode): " x.msg
      ∈ (example_script_orderless env).1 := by
  obtain ⟨sa, t, fr, sr⟩ := env
  simp only at herr
  subst herr
  cases fr with
  | error e => simp [example_script_orderless] at hmem
  | ok u =>
    simp [example_script_orderless] at hmem ⊢
    tauto

/-- C9 witness: the script example at the concrete environment
scriptEnv0. -/
theorem script_payload_and_containment_witness :
    PayloadKind.script [] [] [] = PayloadKind.script [] [] [] ∧
    (1700000000001 : Nat) = scriptEnv0.timeMillis ∧
    (example_script_orderless scriptEnv0).2 = Except.ok () ∧
    Event.printed "Note: Script example failed (expected without valid bytecode): " "INVALID_SCRIPT"
      ∈ (example_script_orderless scriptEnv0).1 :=
  script_payload_and_containment scriptEnv0 3 (PayloadKind.script [] [] [])
    1700000000001 none true { msg := "INVALID_SCRIPT" } (by decide) rfl

/-- C10: every submission event emitted anywhere in a run of main has
its wait flag set to true. -/
theorem all_submissions_wait_true (env : MainEnv) (s : Addr) (p : PayloadKind) (n : Nat)
    (ma : Option Addr) (w : Bool)
    (hmem : Event.submit s p n ma w ∈ (mainRun env).1) : w = true := by
  cases hr1 : (example_regular_orderless env.regular).2 with
  | error e =>
    simp [mainRun, hr1, handlerTrace] at hmem
    exact regular_submit_wait env.regular s p n ma w hmem
  | ok u =>
    cases hr2 : (example_script_orderless env.scriptEx).2 with
    | error e =>
      simp [mainRun, hr1, hr2, handlerTrace] at hmem
      rcases hmem with h | h
      · exact regular_submit_wait env.regular s p n ma w h
      · exact script_submit_wait env.scriptEx s p n ma w h
    | ok u2 =>
      cases hr3 : (example_multisig_orderless_with_execution env.multisig).2 with
      | error e =>
        simp [mainRun, hr1, hr2, hr3, handlerTrace] at hmem
        rcases hmem with h | h | h
        · exact regular_submit_wait env.regular s p n ma w h
        · exact script_submit_wait env.scriptEx s p n ma w h
        · exact multisig_submit_wait env.multisig s p n ma w h
      | ok u3 =>
        cases hr4 : (example_replay_protection env.replay).2 with
        | error e =>
          simp [mainRun, hr1, hr2, hr3, hr4, handlerTrace] at hmem
          rcases hmem with h | h | h | h
          · exact regular_submit_wait env.regular s p n ma w h
          · exact script_submit_wait env.scriptEx s p n ma w h
          · exact multisig_submit_wait env.multisig s p n ma w h
          · exact replay_submit_wait env.replay s p n ma w h
        | ok u4 =>
          simp [mainRun, hr1, hr2, hr3, hr4] at hmem
          rcases hmem with h | h | h | h
          · exact regular_submit_wait env.regular s p n ma w h
          · exact script_submit_wait env.scriptEx s p n ma w h
          · exact multisig_submit_wait env.multisig s p n ma w h
          · exact replay_submit_wait env.replay s p n ma w h

/-- C10 witness: a concrete submission event of a concrete run has its
wait flag true. -/
theorem all_submissions_wait_true_witness :
    Event.submit 1 (transferPayload 2 1000000) 1700000000000 none true ∈ (mainRun envOk).1 ∧
    true = true :=
  ⟨by decide,
   all_submissions_wait_true envOk 1 (transferPayload 2 1000000) 1700000000000 none true
     (by decide)⟩

/-- C8 counterexample: the regular example does not use nonce 12345; its
nonce is the timestamp int(time.time() * 1000) of the environment, here
1700000000000. -/
theorem regular_nonce_counterexample :
    Event.submit 1 (transferPayload 2 1000000) 12345 none true
        ∉ (example_regular_orderless regularEnvOk).1 ∧
    Event.submit 1 (transferPayload 2 1000000) 1700000000000 none true
        ∈ (example_regular_orderless regularEnvOk).1 := by
  decide

/-- C8 amended: the regular example funds the sender with 100000000
units and submits a transfer of 1000000 units to the fresh recipient with
the timestamp-based nonce (not 12345), then queries the recipient
balance; on the modelled chain a fresh recipient with zero balance holds
exactly 1000000 units after that transfer is accepted. -/
theorem regular_transfer_amended (env : RegularEnv) (st : ChainState) (N : Nat) (h : TxHash)
    (hfund : env.fundResult = Except.ok ())
    (hsub : env.submitResult = Except.ok h)
    (hfresh : (env.senderAddr, N) ∉ st.committed)
    (hzero : st.balances env.recipientAddr = 0)
    (hne : env.recipientAddr ≠ env.senderAddr)
    (hfunds : 1000000 ≤ st.balances env.senderAddr) :
    Event.fund env.senderAddr 100000000 ∈ (example_regular_orderless env).1 ∧
    Event.submit env.senderAddr (transferPayload env.recipientAddr 1000000) env.timeMillis
        none true ∈ (example_regular_orderless env).1 ∧
    Event.balanceQuery env.recipientAddr ∈ (example_regular_orderless env).1 ∧
    (submit_orderless_transaction st env.senderAddr
        (transferPayload env.recipientAddr 1000000) N none true).2
      = SubmitResult.accepted (txHashOf env.senderAddr N) ∧
    (submit_orderless_transaction st env.senderAddr
        (transferPayload env.recipientAddr 1000000) N none true).1.balances env.recipientAddr
      = 1000000 := by
  obtain ⟨sa, ra, t, fr, sr, br⟩ := env
  simp only at hfund hsub hfresh hzero hne hfunds ⊢
  subst hfund; subst hsub
  have hv : payloadValid (transferPayload ra 1000000) = true := rfl
  have hamt : transferAmount (transferPayload ra 1000000) = 1000000 := rfl
  have hlt : ¬ st.balances sa < transferAmount (transferPayload ra 1000000) := by
    rw [hamt]; omega
  have e1 : submit_orderless_transaction st sa (transferPayload ra 1000000) N none true
      = ({ st with committed := (sa, N) :: st.committed,
                   balances := applyPayload st.balances sa (transferPayload ra 1000000) },
         SubmitResult.accepted (txHashOf sa N)) := by
    simp [submit_orderless_transaction, hfresh, hv, hlt]
  refine ⟨?_, ?_, ?_, by rw [e1], ?_⟩
  · cases br <;> simp [example_regular_orderless]
  · cases br <;> simp [example_regular_orderless]
  · cases br <;> simp [example_regular_orderless]
  · rw [e1]
    have := applyPayload_recipient st.balances sa ra 1000000 hne
    simp only at this ⊢
    rw [this, hzero]

/-- C8 witness: the amended regular-example behavior at the concrete
environment regularEnvOk and the chain state stFresh. -/
theorem regular_transfer_amended_witness :
    Event.fund 1 100000000 ∈ (example_regular_orderless regularEnvOk).1 ∧
    Event.submit 1 (transferPayload 2 1000000) 1700000000000
        none true ∈ (example_regular_orderless regularEnvOk).1 ∧
    Event.balanceQuery 2 ∈ (example_regular_orderless regularEnvOk).1 ∧
    (submit_orderless_transaction stFresh 1
        (transferPayload 2 1000000) 424242 none true).2
      = SubmitResult.accepted (txHashOf 1 424242) ∧
    (submit_orderless_transaction stFresh 1
        (transferPayload 2 1000000) 424242 none true).1.balances 2
      = 1000000 :=
  regular_transfer_amended regularEnvOk stFresh 424242 77
    rfl rfl (by decide) (by decide) (by decide) (by decide)

end OrderlessTxn
